import Mathlib

/-!
Shallow embedding of the fastAPIproject backend (user identity management
service) and verification of its specification claims.

The embedding follows the Python sources under src/backend:
  * services/password_service.py  (hashing, history)
  * schema.py                     (password strength, PasswordUpdateRequest)
  * services/auth_service.py      (login checks, recovery, password update)
  * routes/auth_routes.py         (mounted auth routes)
  * routes.py                     (legacy route variants)
  * middleware/enhanced_connection_tracker.py (rate limiter)
  * auth.py                       (admin check)

Machine-level boundaries (bcrypt, SQL NOW(), token generation) are modelled
functionally; timestamps are integers (seconds).
-/

namespace Backend

/-- User status enumeration, from models (ACTIVE / INACTIVE / PENDING). -/
inductive UserStatus where
  | ACTIVE
  | INACTIVE
  | PENDING
deriving DecidableEq, BEq, Repr

/-- User role enumeration, from models. -/
inductive UserRole where
  | ADMIN
  | MODERATOR
  | USER
deriving DecidableEq, BEq, Repr

/-- Modelled from the spec: the canonical models/user.py module is not under
src/ (the legacy models.py it shadows uses lowercase values, but §3 and §4.4
of the spec fix the wire/storage role representation as uppercase names, and
auth_service._process_roles and auth.check_admin compare against uppercase).
Role value strings. -/
def UserRole.value : UserRole → String
  | .ADMIN => "ADMIN"
  | .MODERATOR => "MODERATOR"
  | .USER => "USER"

/-- Boundary model of a bcrypt hash string. bcrypt is an external dependency;
we model its functional contract: verification succeeds exactly on the
hashed plaintext. (Salting makes real hash strings differ between calls;
no claim below depends on hash-string inequality.) -/
structure BcryptHash where
  plaintext : String
deriving DecidableEq, BEq, Repr

/-- services/password_service.py PasswordService.hash_password. -/
def hashPassword (password : String) : BcryptHash :=
  { plaintext := password }

/-- services/password_service.py PasswordService.verify_password. -/
def verifyPassword (plainPassword : String) (hashedPassword : BcryptHash) : Bool :=
  plainPassword == hashedPassword.plaintext

/-- services/password_service.py PasswordService.check_password_history:
true iff the new password verifies against no hash in the history
(an empty history is accepted immediately). -/
def checkPasswordHistory (newPassword : String) (passwordHistory : List BcryptHash) : Bool :=
  if passwordHistory.isEmpty then true
  else !(passwordHistory.any (fun old => verifyPassword newPassword old))

/-- services/password_service.py PasswordService.update_password_history:
append the current hash, then keep the last 5 entries (Python list slice
new_history[-5:]). A None history is normalised to [] by the source; the
typed embedding always holds a list. -/
def updatePasswordHistory (currentHash : BcryptHash) (history : List BcryptHash) :
    List BcryptHash :=
  let newHistory := history ++ [currentHash]
  newHistory.drop (newHistory.length - 5)

/-- routes.py update_password, lines 198-203: the legacy route handler first
folds the old hash into the history via update_password_history and then
additionally appends the freshly generated hash of the new password before
storing the list. -/
def legacyNewLastPasswords (oldHash : BcryptHash) (history : List BcryptHash)
    (newHash : BcryptHash) : List BcryptHash :=
  updatePasswordHistory oldHash history ++ [newHash]

/-- One structured validation error entry, as produced by schema.py
(dicts of the shape with keys field and msg). -/
structure FieldError where
  field : String
  msg : String
deriving DecidableEq, BEq, Repr

def msgLength : String := "Password must be at least 16 characters long."
def msgUpper : String := "Password must contain at least one uppercase letter."
def msgLower : String := "Password must contain at least one lowercase letter."
def msgNumber : String := "Password must contain at least one number."
def msgSpecial : String := "Password must contain at least one special character."

/-- ASCII uppercase letter, the character class of the regex [A-Z] in
schema.py. -/
def isAsciiUpper (c : Char) : Bool :=
  65 ≤ c.toNat && c.toNat ≤ 90

/-- ASCII lowercase letter, the character class of the regex [a-z]. -/
def isAsciiLower (c : Char) : Bool :=
  97 ≤ c.toNat && c.toNat ≤ 122

/-- ASCII digit, the character class of the regex [0-9]. -/
def isAsciiDigit (c : Char) : Bool :=
  48 ≤ c.toNat && c.toNat ≤ 57

/-- Membership in Python string.punctuation, the character class the special
character regex in schema.py is built from: the ASCII ranges 33-47, 58-64,
91-96 and 123-126. -/
def isPunctuation (c : Char) : Bool :=
  (33 ≤ c.toNat && c.toNat ≤ 47) || (58 ≤ c.toNat && c.toNat ≤ 64) ||
  (91 ≤ c.toNat && c.toNat ≤ 96) || (123 ≤ c.toNat && c.toNat ≤ 126)

/-- schema.py validate_password_strength: build the list of (condition,
message) pairs, keep one error entry per satisfied failure condition, raise
HTTP 422 with the collected entries when any exists, otherwise return the
password unchanged. -/
def validatePasswordStrength (password : String) : Except (List FieldError) String :=
  let validations : List (Bool × String) :=
    [ (password.length < 16, msgLength),
      (!(password.data.any isAsciiUpper), msgUpper),
      (!(password.data.any isAsciiLower), msgLower),
      (!(password.data.any isAsciiDigit), msgNumber),
      (!(password.data.any isPunctuation), msgSpecial) ]
  let errors := (validations.filter (fun v => v.fst)).map
    (fun v => FieldError.mk "password" v.snd)
  if errors.isEmpty then Except.ok password else Except.error errors

/-- Spec §4.4 rule 1: length at least 16. -/
def RuleLength (p : String) : Prop := 16 ≤ p.length

/-- Spec §4.4 rule 2: contains at least one uppercase letter. -/
def RuleUpper (p : String) : Prop := ∃ c ∈ p.data, isAsciiUpper c = true

/-- Spec §4.4 rule 3: contains at least one lowercase letter. -/
def RuleLower (p : String) : Prop := ∃ c ∈ p.data, isAsciiLower c = true

/-- Spec §4.4 rule 4: contains at least one digit. -/
def RuleDigit (p : String) : Prop := ∃ c ∈ p.data, isAsciiDigit c = true

/-- Spec §4.4 rule 5: contains at least one punctuation/special character. -/
def RuleSpecial (p : String) : Prop := ∃ c ∈ p.data, isPunctuation c = true

/-- All five password-strength rules of spec §4.4. -/
def PasswordRules (p : String) : Prop :=
  RuleLength p ∧ RuleUpper p ∧ RuleLower p ∧ RuleDigit p ∧ RuleSpecial p

instance : DecidablePred RuleLength := fun p => by unfold RuleLength; infer_instance
instance : DecidablePred RuleUpper := fun p => by unfold RuleUpper; infer_instance
instance : DecidablePred RuleLower := fun p => by unfold RuleLower; infer_instance
instance : DecidablePred RuleDigit := fun p => by unfold RuleDigit; infer_instance
instance : DecidablePred RuleSpecial := fun p => by unfold RuleSpecial; infer_instance
instance : DecidablePred PasswordRules := fun p => by unfold PasswordRules; infer_instance

/-- The expected error list of spec §4.4: one structured entry, in order, for
each of the five rules the candidate violates. -/
def specViolations (p : String) : List FieldError :=
  (if ¬ RuleLength p then [FieldError.mk "password" msgLength] else []) ++
  (if ¬ RuleUpper p then [FieldError.mk "password" msgUpper] else []) ++
  (if ¬ RuleLower p then [FieldError.mk "password" msgLower] else []) ++
  (if ¬ RuleDigit p then [FieldError.mk "password" msgNumber] else []) ++
  (if ¬ RuleSpecial p then [FieldError.mk "password" msgSpecial] else [])

end Backend

namespace Backend

/-- C1: validate_password_strength rejects a candidate password (HTTP 422)
exactly when at least one of the five rules of spec §4.4 is violated; the
error detail then carries one structured entry per violated rule (the list
specViolations, built with exactly one entry for each failed rule), and a
password satisfying all five rules is returned unchanged. -/
theorem c1_validate_password_strength (p : String) :
    validatePasswordStrength p =
      (if PasswordRules p then Except.ok p else Except.error (specViolations p)) ∧
    (validatePasswordStrength p = Except.ok p ↔ PasswordRules p) ∧
    (specViolations p = [] ↔ PasswordRules p) := by
  cases hb1 : decide (p.length < 16) <;>
    cases hb2 : p.data.any isAsciiUpper <;>
    cases hb3 : p.data.any isAsciiLower <;>
    cases hb4 : p.data.any isAsciiDigit <;>
    cases hb5 : p.data.any isPunctuation <;>
    (have q1 := hb1
     have q2 := hb2
     have q3 := hb3
     have q4 := hb4
     have q5 := hb5
     simp only [decide_eq_true_eq, decide_eq_false_iff_not, Nat.not_lt] at q1
     simp only [List.any_eq_true, List.any_eq_false] at q2 q3 q4 q5
     simp [validatePasswordStrength, specViolations, PasswordRules,
       RuleLength, RuleUpper, RuleLower, RuleDigit, RuleSpecial,
       List.filter, List.isEmpty, hb1, hb2, hb3, hb4, hb5, q1, q2, q3, q4, q5,
       Nat.not_lt, ← List.any_eq_true])
  all_goals rw [if_neg (by omega)]

/-- Concrete evaluation check: a compliant password is accepted. -/
example : validatePasswordStrength "Abcdefghijkl1234!" = Except.ok "Abcdefghijkl1234!" := by
  rfl

/-- Concrete evaluation check: a short all-lowercase password collects the
length, uppercase, number and special-character entries together. -/
example : validatePasswordStrength "short" =
    Except.error
      [FieldError.mk "password" msgLength, FieldError.mk "password" msgUpper,
       FieldError.mk "password" msgNumber, FieldError.mk "password" msgSpecial] := by
  rfl

/-- The persisted User row (models User), restricted to the fields the
verified operations read or write. Timestamps are integer seconds. -/
structure UserRecord where
  id : Nat
  first_name : String := ""
  last_name : String := ""
  user_name : String
  email : String
  hashed_password : BcryptHash
  status : UserStatus
  roles : String
  last_passwords : List BcryptHash := []
  reset_token : Option String := none
  reset_token_expiry : Option Int := none
  last_login : Option Int := none
deriving DecidableEq, BEq, Repr

/-- The users table, modelled as the list of persisted rows. -/
abbrev UserDB := List UserRecord

/-- routes.py UserService.get_user_by_id (query.filter(User.id == id).first()). -/
def getUserById (db : UserDB) (userId : Nat) : Option UserRecord :=
  db.find? (fun u => u.id == userId)

/-- routes.py UserService.get_user_by_email. -/
def getUserByEmail (db : UserDB) (email : String) : Option UserRecord :=
  db.find? (fun u => u.email == email)

/-- routes.py UserService.get_user_by_username. -/
def getUserByUsername (db : UserDB) (username : String) : Option UserRecord :=
  db.find? (fun u => u.user_name == username)

/-- routes.py UserService.get_user_by_reset_token. -/
def getUserByResetToken (db : UserDB) (token : String) : Option UserRecord :=
  db.find? (fun u => u.reset_token == some token)

/-- ORM mutation plus commit: the mutated row replaces the row with the same
primary key. -/
def replaceUser (db : UserDB) (updated : UserRecord) : UserDB :=
  db.map (fun u => if u.id == updated.id then updated else u)

/-- Python truthiness of an optional string: None and the empty string are
falsy, every other string is truthy. -/
def pyTruthy (s : Option String) : Bool :=
  match s with
  | none => false
  | some str => !str.isEmpty

/-- Python truthiness of an optional integer: None and 0 are falsy. -/
def pyTruthyNat (n : Option Nat) : Bool :=
  match n with
  | none => false
  | some k => k != 0

/-- Authentication failures raised by services/auth_service.py
_handle_login_checks, both HTTP 401. -/
inductive AuthFailure where
  | invalidCredentials
  | accountNotActive
deriving DecidableEq, BEq, Repr

/-- The HTTP 401 detail string of each login failure. -/
def AuthFailure.detail : AuthFailure → String
  | .invalidCredentials => "Invalid username or password"
  | .accountNotActive => "Account is not active"

/-- services/auth_service.py AuthService._handle_login_checks, in source
order: a missing user raises invalid credentials; then a non-ACTIVE status
raises account-not-active; then a failed password verification raises
invalid credentials. -/
def loginChecks (user : Option UserRecord) (password : String) :
    Except AuthFailure Unit :=
  match user with
  | none => Except.error AuthFailure.invalidCredentials
  | some u =>
    if u.status ≠ UserStatus.ACTIVE then Except.error AuthFailure.accountNotActive
    else if !verifyPassword password u.hashed_password then
      Except.error AuthFailure.invalidCredentials
    else Except.ok ()

/-- A patch passed to the user update step: exactly the keys present in the
update_data dict built by the caller, each carrying the new value (the value
itself may be null, as for the cleared reset-token columns). -/
structure UpdatePatch where
  hashed_password : Option BcryptHash := none
  last_passwords : Option (List BcryptHash) := none
  reset_token : Option (Option String) := none
  reset_token_expiry : Option (Option Int) := none
  status : Option UserStatus := none
deriving DecidableEq, Repr

/-- Modelled from the spec: services/user_service.py (imported by
services/auth_service.py) is not under src/. Spec §4.9: update(user, patch)
applies only the fields present in patch, then commits; a field present with
a null value is applied (§4.10 relies on this to clear
reset_token/reset_token_expiry). -/
def specUserServiceUpdate (u : UserRecord) (patch : UpdatePatch) : UserRecord :=
  { u with
    hashed_password := patch.hashed_password.getD u.hashed_password,
    last_passwords := patch.last_passwords.getD u.last_passwords,
    reset_token := patch.reset_token.getD u.reset_token,
    reset_token_expiry := patch.reset_token_expiry.getD u.reset_token_expiry,
    status := patch.status.getD u.status }

/-- The success payload of AuthService.update_password. -/
structure PasswordUpdateOutcome where
  message : String
  require_relogin : Bool
  status_updated : Bool
deriving DecidableEq, BEq, Repr

/-- services/auth_service.py AuthService.update_password. The current
password is verified only when it is truthy (a non-empty string); password
reuse is checked against the stored history; the old hash is folded into the
history; reset_token and reset_token_expiry are always present (as null) in
the update_data dict; PENDING status is promoted to ACTIVE. Returns the
route payload together with the updated row. -/
def authUpdatePassword (user : UserRecord) (newPassword : String)
    (currentPassword : Option String) : Except String (PasswordUpdateOutcome × UserRecord) :=
  if pyTruthy currentPassword &&
      !verifyPassword (currentPassword.getD "") user.hashed_password then
    Except.error "Current password is incorrect"
  else if !checkPasswordHistory newPassword user.last_passwords then
    Except.error "Cannot use any of your last 5 passwords"
  else
    let newHash := hashPassword newPassword
    let newHistory := updatePasswordHistory user.hashed_password user.last_passwords
    let statusUpdated := user.status == UserStatus.PENDING
    let patch : UpdatePatch :=
      { hashed_password := some newHash,
        last_passwords := some newHistory,
        reset_token := some none,
        reset_token_expiry := some none,
        status := if user.status == UserStatus.PENDING then some UserStatus.ACTIVE else none }
    Except.ok
      ({ message := "Password updated successfully",
         require_relogin := pyTruthy currentPassword,
         status_updated := statusUpdated },
       specUserServiceUpdate user patch)

/-- The dict returned by AuthService.initiate_password_recovery: a token key
is present only on the user-found branch. -/
structure RecoveryResult where
  message : String
  token : Option String := none
deriving DecidableEq, BEq, Repr

/-- services/auth_service.py AuthService.initiate_password_recovery: an
unknown email returns the generic message and leaves the database untouched;
otherwise a fresh token (the generated randomness is passed in) and an
expiry of now + 1 hour are persisted on the user row and the token is
returned with a success message. -/
def initiatePasswordRecovery (db : UserDB) (email : String)
    (generatedToken : String) (now : Int) : RecoveryResult × UserDB :=
  match getUserByEmail db email with
  | none => ({ message := "If the email exists, a recovery link will be sent." }, db)
  | some u =>
    let u2 := { u with
      reset_token := some generatedToken,
      reset_token_expiry := some (now + 3600) }
    ({ message := "Recovery initiated successfully", token := some generatedToken },
     replaceUser db u2)

/-- routes/auth_routes.py password_recovery (the route mounted by main.py):
forwards to AuthService.initiate_password_recovery, enqueues one recovery
email background task when the result carries a truthy token, and responds
with the message taken from the service result. Returns (response message,
database, enqueued (recipient, token) email tasks). -/
def authRoutesPasswordRecovery (db : UserDB) (email : String)
    (generatedToken : String) (now : Int) : String × UserDB × List (String × String) :=
  let (result, db2) := initiatePasswordRecovery db email generatedToken now
  let emails :=
    if pyTruthy result.token then [(email, result.token.getD "")] else []
  (result.message, db2, emails)

/-- The body of the mounted /update-password route (schemas/user.py
PasswordUpdateRequest field values after schema validation). -/
structure PasswordUpdateReq where
  user_id : Option Nat := none
  current_password : Option String := none
  new_password : String
  token : Option String := none
deriving DecidableEq, Repr

/-- routes/auth_routes.py get_user_or_404 with the arguments the
update-password route passes: a truthy reset token takes precedence, then a
truthy user id; a missing row is a 404. -/
def getUserOr404 (db : UserDB) (userId : Option Nat)
    (resetToken : Option String) : Except String UserRecord :=
  let found :=
    if pyTruthy resetToken then getUserByResetToken db (resetToken.getD "")
    else if pyTruthyNat userId then getUserById db (userId.getD 0)
    else none
  match found with
  | none => Except.error "User not found"
  | some u => Except.ok u

/-- routes/auth_routes.py update_password, the handler mounted by main.py at
/api/auth/update-password: resolve the user from the request token or user
id, then delegate to AuthService.update_password. Note that no reset-token
expiry comparison appears anywhere on this path. -/
def authRoutesUpdatePassword (db : UserDB) (req : PasswordUpdateReq) :
    Except String (PasswordUpdateOutcome × UserDB) :=
  match getUserOr404 db req.user_id req.token with
  | Except.error e => Except.error e
  | Except.ok user =>
    match authUpdatePassword user req.new_password req.current_password with
    | Except.error e => Except.error e
    | Except.ok (out, u2) => Except.ok (out, replaceUser db u2)

/-- A PENDING user whose stored password is known, for concrete evaluation. -/
def samplePendingUser : UserRecord :=
  { id := 1, user_name := "pending", email := "pending@example.com",
    hashed_password := hashPassword "CorrectHorseBattery1!",
    status := UserStatus.PENDING, roles := "USER" }

/-- An ACTIVE user with an empty password history. -/
def sampleActiveUser : UserRecord :=
  { id := 2, user_name := "alice", email := "alice@example.com",
    hashed_password := hashPassword "OldPassword123!long",
    status := UserStatus.ACTIVE, roles := "ADMIN,USER" }

/-- C6 counterexample: a login attempt with a wrong password against a
PENDING account produces the account-not-active error, not the
invalid-credentials error the claim requires for every failed password
verification (the status check precedes password verification in
_handle_login_checks). -/
theorem c6_counterexample :
    loginChecks (some samplePendingUser) "WrongPassword999$" =
      Except.error AuthFailure.accountNotActive ∧
    verifyPassword "WrongPassword999$" samplePendingUser.hashed_password = false ∧
    AuthFailure.accountNotActive ≠ AuthFailure.invalidCredentials := by
  refine ⟨rfl, rfl, by decide⟩

/-- C6 amended: _handle_login_checks checks the account status before
verifying the password, so account-not-active is raised exactly for an
existing non-ACTIVE account (whatever the supplied password), and
invalid-credentials is raised exactly for an unknown username or for a wrong
password on an ACTIVE account. -/
theorem c6_login_check_order (user : Option UserRecord) (password : String) :
    (loginChecks user password = Except.error AuthFailure.accountNotActive ↔
      ∃ u, user = some u ∧ u.status ≠ UserStatus.ACTIVE) ∧
    (loginChecks user password = Except.error AuthFailure.invalidCredentials ↔
      user = none ∨ ∃ u, user = some u ∧ u.status = UserStatus.ACTIVE ∧
        verifyPassword password u.hashed_password = false) ∧
    (loginChecks user password = Except.ok () ↔
      ∃ u, user = some u ∧ u.status = UserStatus.ACTIVE ∧
        verifyPassword password u.hashed_password = true) := by
  cases user with
  | none => simp [loginChecks]
  | some u =>
    by_cases hs : u.status = UserStatus.ACTIVE <;>
      cases hv : verifyPassword password u.hashed_password <;>
      simp [loginChecks, hs, hv]

/-- C10: AuthService.update_password guards the current-password check with
Python truthiness, so an empty-string current_password behaves exactly like
an omitted one: the incorrect-current-password check is skipped and, on
success, require_relogin is false. -/
theorem c10_empty_current_password :
    (∀ (u : UserRecord) (newPw : String),
      authUpdatePassword u newPw (some "") = authUpdatePassword u newPw none) ∧
    (∀ (u : UserRecord) (newPw : String) (out : PasswordUpdateOutcome) (u2 : UserRecord),
      authUpdatePassword u newPw (some "") = Except.ok (out, u2) →
      out.require_relogin = false) := by
  have he : ("" : String).isEmpty = true := rfl
  constructor
  · intro u newPw
    simp [authUpdatePassword, pyTruthy, he]
  · intro u newPw out u2 h
    by_cases hc : checkPasswordHistory newPw u.last_passwords <;>
      simp [authUpdatePassword, pyTruthy, he, hc] at h
    obtain ⟨h1, h2⟩ := h
    simp [← h1]

/-- C10 witness: the hypotheses of the theorem hold at a concrete call — the
update of sampleActiveUser with an empty-string current password succeeds —
and the returned payload has require_relogin = false. -/
theorem c10_witness :
    authUpdatePassword sampleActiveUser "BrandNewSecret99$word" (some "") =
      Except.ok
        ({ message := "Password updated successfully", require_relogin := false,
           status_updated := false },
         { id := 2, user_name := "alice", email := "alice@example.com",
           hashed_password := hashPassword "BrandNewSecret99$word",
           status := UserStatus.ACTIVE, roles := "ADMIN,USER",
           last_passwords := [hashPassword "OldPassword123!long"] }) ∧
    ({ message := "Password updated successfully", require_relogin := false,
       status_updated := false } : PasswordUpdateOutcome).require_relogin = false :=
  ⟨rfl,
   c10_empty_current_password.2 sampleActiveUser "BrandNewSecret99$word"
     { message := "Password updated successfully", require_relogin := false,
       status_updated := false }
     { id := 2, user_name := "alice", email := "alice@example.com",
       hashed_password := hashPassword "BrandNewSecret99$word",
       status := UserStatus.ACTIVE, roles := "ADMIN,USER",
       last_passwords := [hashPassword "OldPassword123!long"] }
     rfl⟩

/-- C5: on the mounted token-based update-password path, a PENDING user
holding a valid (unexpired) reset token whose update succeeds ends ACTIVE
with reset_token and reset_token_expiry cleared and status_updated = true in
the response; for an already-ACTIVE user the status is unchanged and
status_updated = false. -/
theorem c5_token_reset_promotes_pending :
    (∀ (db : UserDB) (tok newPw : String) (u : UserRecord) (e now : Int),
      tok ≠ "" →
      getUserByResetToken db tok = some u →
      u.status = UserStatus.PENDING →
      u.reset_token_expiry = some e →
      now < e →
      checkPasswordHistory newPw u.last_passwords = true →
      ∃ out u2,
        authRoutesUpdatePassword db { new_password := newPw, token := some tok } =
          Except.ok (out, replaceUser db u2) ∧
        out.status_updated = true ∧
        u2.status = UserStatus.ACTIVE ∧
        u2.reset_token = none ∧
        u2.reset_token_expiry = none ∧
        u2.id = u.id) ∧
    (∀ (db : UserDB) (tok newPw : String) (u : UserRecord),
      tok ≠ "" →
      getUserByResetToken db tok = some u →
      u.status = UserStatus.ACTIVE →
      checkPasswordHistory newPw u.last_passwords = true →
      ∃ out u2,
        authRoutesUpdatePassword db { new_password := newPw, token := some tok } =
          Except.ok (out, replaceUser db u2) ∧
        out.status_updated = false ∧
        u2.status = UserStatus.ACTIVE ∧
        u2.id = u.id) := by
  constructor
  · intro db tok newPw u e now htok hfind hpend hexp hvalid hhist
    have hte : tok.isEmpty = false := by
      rw [Bool.eq_false_iff]
      simp [String.isEmpty_iff, htok]
    have htr : pyTruthy (some tok) = true := by
      simp [pyTruthy, hte]
    have hpb : (u.status == UserStatus.PENDING) = true := by
      rw [hpend]; rfl
    refine ⟨{ message := "Password updated successfully", require_relogin := false,
              status_updated := true },
            specUserServiceUpdate u
              { hashed_password := some (hashPassword newPw),
                last_passwords :=
                  some (updatePasswordHistory u.hashed_password u.last_passwords),
                reset_token := some none, reset_token_expiry := some none,
                status := some UserStatus.ACTIVE },
            ?_, ?_, ?_, ?_, ?_, ?_⟩ <;>
      simp [authRoutesUpdatePassword, getUserOr404, htr, hte, hfind,
        authUpdatePassword, pyTruthy, hhist, hpb, specUserServiceUpdate]
  · intro db tok newPw u htok hfind hact hhist
    have hte : tok.isEmpty = false := by
      rw [Bool.eq_false_iff]
      simp [String.isEmpty_iff, htok]
    have htr : pyTruthy (some tok) = true := by
      simp [pyTruthy, hte]
    have hpb : (u.status == UserStatus.PENDING) = false := by
      rw [hact]; rfl
    have hbe : (UserStatus.ACTIVE == UserStatus.PENDING) = false := rfl
    refine ⟨{ message := "Password updated successfully", require_relogin := false,
              status_updated := false },
            specUserServiceUpdate u
              { hashed_password := some (hashPassword newPw),
                last_passwords :=
                  some (updatePasswordHistory u.hashed_password u.last_passwords),
                reset_token := some none, reset_token_expiry := some none,
                status := none },
            ?_, ?_, ?_, ?_⟩ <;>
      simp [authRoutesUpdatePassword, getUserOr404, htr, hte, hfind,
        authUpdatePassword, pyTruthy, hhist, hpb, hbe, hact, specUserServiceUpdate]

/-- A PENDING user created by the admin flow, holding an unexpired token. -/
def samplePendingTokenUser : UserRecord :=
  { id := 3, user_name := "carol", email := "carol@example.com",
    hashed_password := hashPassword "InitialSecret123!aa",
    status := UserStatus.PENDING, roles := "USER",
    reset_token := some "tok123", reset_token_expiry := some 5000 }

/-- An ACTIVE user holding an unexpired reset token. -/
def sampleActiveTokenUser : UserRecord :=
  { id := 4, user_name := "dave", email := "dave@example.com",
    hashed_password := hashPassword "InitialSecret123!bb",
    status := UserStatus.ACTIVE, roles := "USER",
    reset_token := some "tok456", reset_token_expiry := some 5000 }

/-- C5 witness: both parts of the theorem hold at concrete users — a PENDING
token holder is promoted with status_updated true, an ACTIVE token holder
keeps status ACTIVE with status_updated false. -/
theorem c5_witness :
    (∃ out u2,
      authRoutesUpdatePassword [samplePendingTokenUser]
          { new_password := "NextSecret4567$pw", token := some "tok123" } =
        Except.ok (out, replaceUser [samplePendingTokenUser] u2) ∧
      out.status_updated = true ∧
      u2.status = UserStatus.ACTIVE ∧
      u2.reset_token = none ∧
      u2.reset_token_expiry = none ∧
      u2.id = samplePendingTokenUser.id) ∧
    (∃ out u2,
      authRoutesUpdatePassword [sampleActiveTokenUser]
          { new_password := "NextSecret8901$pw", token := some "tok456" } =
        Except.ok (out, replaceUser [sampleActiveTokenUser] u2) ∧
      out.status_updated = false ∧
      u2.status = UserStatus.ACTIVE ∧
      u2.id = sampleActiveTokenUser.id) :=
  ⟨c5_token_reset_promotes_pending.1 [samplePendingTokenUser] "tok123"
      "NextSecret4567$pw" samplePendingTokenUser 5000 0 (by decide) rfl rfl rfl
      (by decide) rfl,
   c5_token_reset_promotes_pending.2 [sampleActiveTokenUser] "tok456"
      "NextSecret8901$pw" sampleActiveTokenUser (by decide) rfl rfl rfl⟩

/-- An ACTIVE user with a registered email address. -/
def sampleRecoveryUser : UserRecord :=
  { id := 6, user_name := "bob", email := "bob@example.com",
    hashed_password := hashPassword "BobSecret123!pass",
    status := UserStatus.ACTIVE, roles := "USER" }

/-- C3 failing input: POST /password-recovery on the mounted route
(auth_routes.password_recovery) answers with the message from the
AuthService result, which is the success message when the email exists and
the generic guard message when it does not — the two response bodies are
distinguishable. The second half of the claim does hold: for an unknown
email no row is mutated and no email task is enqueued, while a known email
enqueues exactly one task. -/
theorem c3_recovery_message_distinguishes :
    (authRoutesPasswordRecovery [sampleRecoveryUser] "bob@example.com" "rtok" 100).1 =
      "Recovery initiated successfully" ∧
    (authRoutesPasswordRecovery [sampleRecoveryUser] "missing@example.com" "rtok" 100).1 =
      "If the email exists, a recovery link will be sent." ∧
    (authRoutesPasswordRecovery [sampleRecoveryUser] "bob@example.com" "rtok" 100).1 ≠
      (authRoutesPasswordRecovery [sampleRecoveryUser] "missing@example.com" "rtok" 100).1 ∧
    (authRoutesPasswordRecovery [sampleRecoveryUser] "missing@example.com" "rtok" 100).2.1 =
      [sampleRecoveryUser] ∧
    (authRoutesPasswordRecovery [sampleRecoveryUser] "missing@example.com" "rtok" 100).2.2 =
      [] ∧
    (authRoutesPasswordRecovery [sampleRecoveryUser] "bob@example.com" "rtok" 100).2.2 =
      [("bob@example.com", "rtok")] := by
  refine ⟨rfl, rfl, ?_, rfl, rfl, rfl⟩
  decide

/-- An ACTIVE user whose reset token expired at time 0. -/
def sampleExpiredUser : UserRecord :=
  { id := 5, user_name := "eve", email := "eve@example.com",
    hashed_password := hashPassword "OldExpired123!pass",
    status := UserStatus.ACTIVE, roles := "USER",
    reset_token := some "exptok", reset_token_expiry := some 0 }

/-- C4 failing input: the mounted update-password route
(auth_routes.update_password → AuthService.update_password) never compares
reset_token_expiry with the current time, so a request at any time after the
stored expiry (expiry 0, request at 100) succeeds and mutates the stored
hash and history instead of failing with the reset-token-has-expired error. -/
theorem c4_expired_token_accepted :
    sampleExpiredUser.reset_token_expiry = some 0 ∧
    ((0 : Int) < 100) ∧
    authRoutesUpdatePassword [sampleExpiredUser]
        { new_password := "FreshSecret123$abc", token := some "exptok" } =
      Except.ok
        ({ message := "Password updated successfully", require_relogin := false,
           status_updated := false },
         [{ id := 5, user_name := "eve", email := "eve@example.com",
            hashed_password := hashPassword "FreshSecret123$abc",
            status := UserStatus.ACTIVE, roles := "USER",
            last_passwords := [hashPassword "OldExpired123!pass"] }]) ∧
    authRoutesUpdatePassword [sampleExpiredUser]
        { new_password := "FreshSecret123$abc", token := some "exptok" } ≠
      Except.error "Reset token has expired" ∧
    hashPassword "FreshSecret123$abc" ≠ sampleExpiredUser.hashed_password := by
  refine ⟨rfl, by decide, rfl, fun h => Except.noConfusion h, by decide⟩

/-- C2 counterexample: starting from a five-entry history, the legacy
routes.py update-password handler stores six entries (the truncated history
plus the new hash), so the claim that no route stores more than 5 fails. -/
theorem c2_counterexample :
    ¬ ((legacyNewLastPasswords (BcryptHash.mk "h0")
        [BcryptHash.mk "h1", BcryptHash.mk "h2", BcryptHash.mk "h3",
         BcryptHash.mk "h4", BcryptHash.mk "h5"]
        (BcryptHash.mk "h6")).length ≤ 5) := by
  decide

/-- C2 amended: update_password_history itself always returns the most
recent min(n+1, 5) hashes (a suffix of history + current, oldest dropped
first), and the AuthService update path stores at most 5 entries; but the
legacy routes.py update-password handler appends the new hash after the
truncation and stores min(n+1, 5) + 1 entries — up to 6. -/
theorem c2_history_bounds :
    (∀ (cur : BcryptHash) (hist : List BcryptHash),
      (updatePasswordHistory cur hist).length = min (hist.length + 1) 5 ∧
      (updatePasswordHistory cur hist).IsSuffix (hist ++ [cur])) ∧
    (∀ (u : UserRecord) (newPw : String) (cp : Option String)
        (out : PasswordUpdateOutcome) (u2 : UserRecord),
      authUpdatePassword u newPw cp = Except.ok (out, u2) →
      u2.last_passwords.length ≤ 5) ∧
    (∀ (old : BcryptHash) (hist : List BcryptHash) (newH : BcryptHash),
      (legacyNewLastPasswords old hist newH).length = min (hist.length + 1) 5 + 1) := by
  have hlen : ∀ (cur : BcryptHash) (hist : List BcryptHash),
      (updatePasswordHistory cur hist).length = min (hist.length + 1) 5 := by
    intro cur hist
    simp [updatePasswordHistory]
    omega
  refine ⟨fun cur hist => ⟨hlen cur hist, List.drop_suffix _ _⟩, ?_, ?_⟩
  · intro u newPw cp out u2 h
    unfold authUpdatePassword at h
    split at h
    · exact absurd h (by simp)
    · split at h
      · exact absurd h (by simp)
      · simp only [Except.ok.injEq, Prod.mk.injEq] at h
        obtain ⟨-, hu2⟩ := h
        rw [← hu2]
        simp only [specUserServiceUpdate, Option.getD_some]
        rw [hlen]
        omega
  · intro old hist newH
    simp [legacyNewLastPasswords, hlen old hist]

/-- C2 witness: the AuthService-path bound of the theorem applied at a
concrete successful update, whose stored history has one entry. -/
theorem c2_witness :
    ({ id := 2, user_name := "alice", email := "alice@example.com",
       hashed_password := hashPassword "AnotherSecret55#pw",
       status := UserStatus.ACTIVE, roles := "ADMIN,USER",
       last_passwords := [hashPassword "OldPassword123!long"] } :
        UserRecord).last_passwords.length ≤ 5 :=
  c2_history_bounds.2.1 sampleActiveUser "AnotherSecret55#pw" none
    { message := "Password updated successfully", require_relogin := false,
      status_updated := false }
    { id := 2, user_name := "alice", email := "alice@example.com",
      hashed_password := hashPassword "AnotherSecret55#pw",
      status := UserStatus.ACTIVE, roles := "ADMIN,USER",
      last_passwords := [hashPassword "OldPassword123!long"] }
    rfl

/-- Helper: validate_password_strength as a single equation against the
spec-side rule set. -/
theorem validateStrength_spec (p : String) :
    validatePasswordStrength p =
      (if PasswordRules p then Except.ok p else Except.error (specViolations p)) := by
  cases hb1 : decide (p.length < 16) <;>
    cases hb2 : p.data.any isAsciiUpper <;>
    cases hb3 : p.data.any isAsciiLower <;>
    cases hb4 : p.data.any isAsciiDigit <;>
    cases hb5 : p.data.any isPunctuation <;>
    (have q1 := hb1
     have q2 := hb2
     have q3 := hb3
     have q4 := hb4
     have q5 := hb5
     simp only [decide_eq_true_eq, decide_eq_false_iff_not, Nat.not_lt] at q1
     simp only [List.any_eq_true, List.any_eq_false] at q2 q3 q4 q5
     simp [validatePasswordStrength, specViolations, PasswordRules,
       RuleLength, RuleUpper, RuleLower, RuleDigit, RuleSpecial,
       List.filter, List.isEmpty, hb1, hb2, hb3, hb4, hb5, q1, q2, q3, q4, q5,
       Nat.not_lt, ← List.any_eq_true])
  all_goals rw [if_neg (by omega)]

/-- The JSON body of a PasswordUpdateRequest as schema.py sees it: each
optional field is either absent from the body (outer none) or supplied,
possibly as an explicit null (inner none). new_password is required. -/
structure PasswordUpdateSchemaInput where
  user_id : Option (Option Nat) := none
  current_password : Option (Option String) := none
  new_password : String
  token : Option (Option String) := none
deriving DecidableEq, Repr

/-- schema.py PasswordUpdateRequest validation under pydantic v2 semantics:

* a field validator runs only for a value supplied in the body
  (validate_default is unset), so an omitted user_id or current_password
  never reaches validate_required_fields;
* when validate_required_fields does run, it reads the token through
  getattr(field.data, ..., None) where field.data is the dict of previously
  validated fields: attribute access on a dict always yields None (and the
  token field is declared after user_id and current_password anyway), so the
  validator behaves as if token were absent and rejects every explicitly
  null value;
* validate_password_strength raises HTTPException and aborts model
  construction, while the ValueErrors of the conditional validator are
  collected into one validation error per offending field. -/
def validatePasswordUpdateRequest (b : PasswordUpdateSchemaInput) :
    Except (List FieldError) Unit :=
  let userIdErrors :=
    match b.user_id with
    | some none =>
      [FieldError.mk "user_id" "user_id is required when token is not provided"]
    | _ => []
  let currentPasswordErrors :=
    match b.current_password with
    | some none =>
      [FieldError.mk "current_password"
        "current_password is required when token is not provided"]
    | _ => []
  match validatePasswordStrength b.new_password with
  | Except.error es => Except.error es
  | Except.ok _ =>
    let errs := userIdErrors ++ currentPasswordErrors
    if errs.isEmpty then Except.ok () else Except.error errs

/-- C7 counterexample: a body carrying only a strength-valid new_password —
token absent and user_id and current_password also absent — passes
validation, although the claim requires it to fail naming both missing
fields. -/
theorem c7_counterexample :
    validatePasswordUpdateRequest { new_password := "StrongPassword11$$" } =
      Except.ok () ∧
    ({ new_password := "StrongPassword11$$" } : PasswordUpdateSchemaInput).token =
      none ∧
    ({ new_password := "StrongPassword11$$" } : PasswordUpdateSchemaInput).user_id =
      none ∧
    ({ new_password := "StrongPassword11$$" } :
      PasswordUpdateSchemaInput).current_password = none :=
  ⟨rfl, rfl, rfl, rfl⟩

/-- C7 amended: PasswordUpdateRequest validation succeeds iff the new
password is strength-valid and neither user_id nor current_password is
supplied as an explicit null; the token has no influence at all (a body with
only token and a strong new_password does succeed, but a body omitting all
three optional fields succeeds as well, and an explicit null user_id or
current_password fails even when a token is supplied). -/
theorem c7_conditional_validation (b : PasswordUpdateSchemaInput) :
    (validatePasswordUpdateRequest b = Except.ok () ↔
      PasswordRules b.new_password ∧ b.user_id ≠ some none ∧
        b.current_password ≠ some none) ∧
    (∀ t, validatePasswordUpdateRequest { b with token := t } =
      validatePasswordUpdateRequest b) := by
  obtain ⟨uid, cpw, np, tok⟩ := b
  refine ⟨?_, fun t => rfl⟩
  simp only [validatePasswordUpdateRequest, validateStrength_spec]
  by_cases hr : PasswordRules np <;>
    rcases uid with - | uidv <;>
    try rcases uidv with - | -
  all_goals
    rcases cpw with - | cpwv
  all_goals
    try rcases cpwv with - | -
  all_goals
    simp [hr]

/-- middleware/enhanced_connection_tracker.py RateLimitInfo: the per-key
window tracker (list of request timestamps and the window length). -/
structure RateLimitInfo where
  requests : List Int
  window_seconds : Int
deriving DecidableEq, Repr

/-- RateLimitInfo.clean_old_requests: keep only timestamps strictly newer
than current_time - window_seconds (mutating the stored list). -/
def cleanOldRequests (info : RateLimitInfo) (currentTime : Int) : RateLimitInfo :=
  { info with
    requests := info.requests.filter
      (fun ts => currentTime - info.window_seconds < ts) }

/-- RateLimitInfo.add_request: clean at the current time, then append it. -/
def addRequest (info : RateLimitInfo) (now : Int) : RateLimitInfo :=
  let cleaned := cleanOldRequests info now
  { cleaned with requests := cleaned.requests ++ [now] }

/-- RateLimitInfo.get_request_count: clean (a mutation the caller keeps),
then return the remaining count. -/
def getRequestCount (info : RateLimitInfo) (now : Int) : Nat × RateLimitInfo :=
  let cleaned := cleanOldRequests info now
  (cleaned.requests.length, cleaned)

/-- The tracker's rate_limits dict, keyed by "source_ip:endpoint". -/
abbrev RateLimits := List (String × RateLimitInfo)

def lookupRateLimit (rl : RateLimits) (key : String) : Option RateLimitInfo :=
  (rl.find? (fun kv => kv.fst == key)).map (fun kv => kv.snd)

def setRateLimit (rl : RateLimits) (key : String) (info : RateLimitInfo) : RateLimits :=
  if (rl.find? (fun kv => kv.fst == key)).isSome then
    rl.map (fun kv => if kv.fst == key then (key, info) else kv)
  else rl ++ [(key, info)]

/-- EnhancedConnectionTracker.check_rate_limit: a missing key gets a fresh
window tracker, as does a key whose configured window changed; the count of
timestamps remaining after the cleanup is compared against the limit — at or
above the limit the request is denied and nothing is recorded (only the
cleanup mutation is kept), otherwise the current timestamp is recorded via
add_request (which cleans once more) and the request is allowed. -/
def checkRateLimit (rl : RateLimits) (sourceIp endpoint : String)
    (limit : Nat) (window : Int) (now : Int) : Bool × RateLimits :=
  let key := sourceIp ++ ":" ++ endpoint
  let info0 :=
    match lookupRateLimit rl key with
    | none => { requests := [], window_seconds := window }
    | some info =>
      if info.window_seconds ≠ window then { requests := [], window_seconds := window }
      else info
  let res := getRequestCount info0 now
  if limit ≤ res.fst then
    (false, setRateLimit rl key res.snd)
  else
    (true, setRateLimit rl key (addRequest res.snd now))

/-- Spec view for C8: the previously recorded timestamps of the key that are
still inside the window (an absent key or a changed window contributes
none). -/
def specRemaining (rl : RateLimits) (key : String) (window now : Int) : List Int :=
  (match lookupRateLimit rl key with
   | some info => if info.window_seconds = window then info.requests else []
   | none => []).filter (fun ts => now - window < ts)

/-- C8: check_rate_limit first discards the key's recorded timestamps that
are older than the window, answers true exactly when the count of remaining
timestamps is below the limit, stores only the discarded-timestamp state
when it denies (a denied attempt records nothing), appends the current
timestamp when it allows — and once every previously recorded timestamp has
aged past the window, a subsequent request (with a positive limit) is
allowed again. -/
theorem c8_check_rate_limit (rl : RateLimits) (ip ep : String) (limit : Nat)
    (window now : Int) :
    (checkRateLimit rl ip ep limit window now).fst =
      decide ((specRemaining rl (ip ++ ":" ++ ep) window now).length < limit) ∧
    (checkRateLimit rl ip ep limit window now).snd =
      setRateLimit rl (ip ++ ":" ++ ep)
        { requests :=
            (if (specRemaining rl (ip ++ ":" ++ ep) window now).length < limit then
              specRemaining rl (ip ++ ":" ++ ep) window now ++ [now]
            else specRemaining rl (ip ++ ":" ++ ep) window now),
          window_seconds := window } ∧
    ((∀ ts ∈ (match lookupRateLimit rl (ip ++ ":" ++ ep) with
        | some info => info.requests
        | none => ([] : List Int)), ts ≤ now - window) →
      0 < limit →
      (checkRateLimit rl ip ep limit window now).fst = true) := by
  have hidem : ∀ (info : RateLimitInfo) (t : Int),
      cleanOldRequests (cleanOldRequests info t) t = cleanOldRequests info t := by
    intro info t
    simp [cleanOldRequests, List.filter_filter]
  have hmain :
      (checkRateLimit rl ip ep limit window now).fst =
        decide ((specRemaining rl (ip ++ ":" ++ ep) window now).length < limit) ∧
      (checkRateLimit rl ip ep limit window now).snd =
        setRateLimit rl (ip ++ ":" ++ ep)
          { requests :=
              (if (specRemaining rl (ip ++ ":" ++ ep) window now).length < limit then
                specRemaining rl (ip ++ ":" ++ ep) window now ++ [now]
              else specRemaining rl (ip ++ ":" ++ ep) window now),
            window_seconds := window } := by
    unfold checkRateLimit specRemaining getRequestCount addRequest
    cases hk : lookupRateLimit rl (ip ++ ":" ++ ep) with
    | none =>
      simp only [hk]
      simp [cleanOldRequests]
      by_cases hl : limit = 0 <;> simp [hl, Nat.pos_iff_ne_zero]
    | some info =>
      by_cases hw : info.window_seconds = window
      · simp only [hk]
        simp [hw, hidem, cleanOldRequests, List.filter_filter]
        generalize (List.filter (fun ts => decide (now - window < ts)) info.requests) = l
        by_cases hc : limit ≤ l.length
        · have hnl : ¬ (l.length < limit) := by omega
          simp [hc, hnl]
        · have hl : l.length < limit := by omega
          simp [hc, hl]
      · simp only [hk]
        simp [hw, hidem, cleanOldRequests, List.filter_filter]
        by_cases hl : limit = 0 <;> simp [hl, Nat.pos_iff_ne_zero]
  refine ⟨hmain.1, hmain.2, ?_⟩
  intro hall hlim
  rw [hmain.1]
  have hempty : specRemaining rl (ip ++ ":" ++ ep) window now = [] := by
    unfold specRemaining
    cases hk : lookupRateLimit rl (ip ++ ":" ++ ep) with
    | none => simp
    | some info =>
      simp only [hk] at hall
      by_cases hw : info.window_seconds = window <;>
        simp [hw, List.filter_eq_nil_iff]
      intro ts hts
      have := hall ts hts
      omega
  rw [hempty]
  simp [hlim]

/-- C8 witness: a key whose two recorded timestamps (10 and 20) have aged
out of a 60-second window by time 1000 is allowed again under limit 1, by
the aging conjunct of the theorem applied at this concrete state. -/
theorem c8_witness :
    (checkRateLimit
        [("ip1:/login", { requests := [10, 20], window_seconds := 60 })]
        "ip1" "/login" 1 60 1000).fst = true :=
  (c8_check_rate_limit
      [("ip1:/login", { requests := [10, 20], window_seconds := 60 })]
      "ip1" "/login" 1 60 1000).2.2 (by decide) (by decide)

/-- Helper for splitting a string on commas (the behaviour of the Python
str.split used by auth.py check_admin), written by structural recursion over
the character list so that it evaluates definitionally. -/
def splitCommaAux : List Char → List Char → List String
  | [], acc => [String.mk acc.reverse]
  | c :: cs, acc =>
    if c = ',' then String.mk acc.reverse :: splitCommaAux cs []
    else splitCommaAux cs (c :: acc)

/-- Python str.split on a comma: "USER,MODERATOR" becomes the two role
names, the empty string becomes a single empty entry. -/
def splitComma (s : String) : List String :=
  splitCommaAux s.data []

/-- auth.py check_admin support: the stored comma-separated roles string,
split on commas. -/
def rolesList (u : UserRecord) : List String :=
  splitComma u.roles

/-- auth.py check_admin: the caller passes iff ADMIN is among their split
roles; otherwise HTTP 403 (only admins can perform this action). -/
def isAdmin (u : UserRecord) : Bool :=
  (rolesList u).contains "ADMIN"

/-- The validated UserUpdateRequest body reaching routes.py edit_user (roles
already normalised to uppercase strings by the schema validator). -/
structure UserUpdateBody where
  first_name : Option String := none
  last_name : Option String := none
  email : Option String := none
  status : Option UserStatus := none
  roles : Option (List String) := none
deriving DecidableEq, Repr

/-- Failures of the user-management routes. -/
inductive RouteFailure where
  | forbidden
  | notFound
  | badRequest (detail : String)
deriving DecidableEq, Repr

/-- The field application step of routes.py edit_user: update_data holds the
non-None body fields (with roles pre-joined to the stored string form), and
UserService.update_user sets exactly those attributes. -/
def applyEdit (dbUser : UserRecord) (body : UserUpdateBody)
    (rolesStr : Option String) : UserRecord :=
  { dbUser with
    first_name := body.first_name.getD dbUser.first_name,
    last_name := body.last_name.getD dbUser.last_name,
    email := body.email.getD dbUser.email,
    status := body.status.getD dbUser.status,
    roles := rolesStr.getD dbUser.roles }

/-- routes.py edit_user: check_admin runs unconditionally first (its
docstring reads: update user details, admin only endpoint), then the target
is loaded (404 if absent), a non-empty roles list is validated against the
UserRole values and joined with commas (400 listing invalid names), the
status enum is revalidated (an identity on an already-validated body), and
the remaining fields are applied. An empty roles list is falsy in Python and
skips the validation/join step (the source would then hand the raw empty
list to setattr; the model leaves the stored roles unchanged in that
out-of-scope corner). -/
def editUser (db : UserDB) (currentUser : UserRecord) (userId : Nat)
    (body : UserUpdateBody) : Except RouteFailure (UserRecord × UserDB) :=
  if !isAdmin currentUser then Except.error RouteFailure.forbidden
  else
    match getUserById db userId with
    | none => Except.error RouteFailure.notFound
    | some dbUser =>
      match body.roles with
      | some rs =>
        if !rs.isEmpty then
          let validRoles :=
            [UserRole.ADMIN.value, UserRole.MODERATOR.value, UserRole.USER.value]
          let invalid := rs.filter (fun r => !validRoles.contains r)
          if !invalid.isEmpty then
            Except.error (RouteFailure.badRequest "Invalid roles")
          else
            let u2 := applyEdit dbUser body (some (String.intercalate "," rs))
            Except.ok (u2, replaceUser db u2)
        else
          let u2 := applyEdit dbUser body none
          Except.ok (u2, replaceUser db u2)
      | none =>
        let u2 := applyEdit dbUser body none
        Except.ok (u2, replaceUser db u2)

/-- A non-admin user, target of their own edit. -/
def sampleNonAdminUser : UserRecord :=
  { id := 7, user_name := "frank", email := "frank@example.com",
    hashed_password := hashPassword "FrankSecret123!pw",
    status := UserStatus.ACTIVE, roles := "USER,MODERATOR" }

/-- C9 counterexample: an authenticated non-admin user editing their own
record (caller id equals the path user_id, and the row exists) receives 403,
although the claim requires the self-edit to succeed. -/
theorem c9_counterexample :
    isAdmin sampleNonAdminUser = false ∧
    editUser [sampleNonAdminUser] sampleNonAdminUser sampleNonAdminUser.id {} =
      Except.error RouteFailure.forbidden :=
  ⟨rfl, rfl⟩

/-- C9 amended: PUT /users/(id) as implemented by routes.py edit_user is
admin-only, not self-or-admin: the 403 is returned exactly when the caller
lacks the ADMIN role, including when the caller is the target user; and for
an admin caller a valid non-empty roles list and a status in the body are
applied to the stored row, not dropped. -/
theorem c9_edit_user_admin_only (db : UserDB) (caller : UserRecord)
    (userId : Nat) (body : UserUpdateBody) :
    (editUser db caller userId body = Except.error RouteFailure.forbidden ↔
      isAdmin caller = false) ∧
    (∀ (dbUser : UserRecord) (rs : List String),
      isAdmin caller = true →
      getUserById db userId = some dbUser →
      body.roles = some rs →
      rs.isEmpty = false →
      (rs.filter (fun r =>
        !([UserRole.ADMIN.value, UserRole.MODERATOR.value,
           UserRole.USER.value].contains r))).isEmpty = true →
      editUser db caller userId body =
        Except.ok (applyEdit dbUser body (some (String.intercalate "," rs)),
          replaceUser db (applyEdit dbUser body (some (String.intercalate "," rs)))) ∧
      (applyEdit dbUser body (some (String.intercalate "," rs))).roles =
        String.intercalate "," rs ∧
      (applyEdit dbUser body (some (String.intercalate "," rs))).status =
        body.status.getD dbUser.status) := by
  constructor
  · cases ha : isAdmin caller <;> simp [editUser, ha]
    cases hg : getUserById db userId <;> simp [hg]
    cases hr : body.roles
    · simp
    · simp
      split
      · simp
      · split <;> simp
  · intro dbUser rs ha hg hr hne hvalid
    refine ⟨?_, rfl, rfl⟩
    simp only [List.isEmpty_eq_true, List.filter_eq_nil_iff] at hvalid
    simp [editUser, ha, hg, hr, hne]
    intro x hx h1 h2
    have hmem := hvalid x hx
    simp at hmem
    tauto

/-- An administrator account. -/
def sampleAdminUser : UserRecord :=
  { id := 8, user_name := "gina", email := "gina@example.com",
    hashed_password := hashPassword "GinaSecret123!pw",
    status := UserStatus.ACTIVE, roles := "ADMIN" }

/-- C9 witness: the admin-application part of the theorem at a concrete
edit — an admin caller updates another user with a roles list and a status,
and both are applied to the stored row. -/
theorem c9_witness :
    editUser [sampleNonAdminUser] sampleAdminUser 7
        { status := some UserStatus.INACTIVE, roles := some ["ADMIN", "USER"] } =
      Except.ok
        (applyEdit sampleNonAdminUser
          { status := some UserStatus.INACTIVE, roles := some ["ADMIN", "USER"] }
          (some (String.intercalate "," ["ADMIN", "USER"])),
         replaceUser [sampleNonAdminUser]
          (applyEdit sampleNonAdminUser
            { status := some UserStatus.INACTIVE, roles := some ["ADMIN", "USER"] }
            (some (String.intercalate "," ["ADMIN", "USER"])))) ∧
    (applyEdit sampleNonAdminUser
      { status := some UserStatus.INACTIVE, roles := some ["ADMIN", "USER"] }
      (some (String.intercalate "," ["ADMIN", "USER"]))).roles =
      String.intercalate "," ["ADMIN", "USER"] ∧
    (applyEdit sampleNonAdminUser
      { status := some UserStatus.INACTIVE, roles := some ["ADMIN", "USER"] }
      (some (String.intercalate "," ["ADMIN", "USER"]))).status =
      (some UserStatus.INACTIVE).getD sampleNonAdminUser.status :=
  (c9_edit_user_admin_only [sampleNonAdminUser] sampleAdminUser 7
    { status := some UserStatus.INACTIVE, roles := some ["ADMIN", "USER"] }).2
    sampleNonAdminUser ["ADMIN", "USER"] rfl rfl rfl rfl rfl

end Backend













